import Mathlib

/-!
Verification of the battle-orchestration core of the vibe-cobe-rts repository.

The definitions below are a shallow embedding of the TypeScript source:

* `BattleService` (src/backend/src/index.ts, second document: lines 85-316):
  `startBattle`, `handleAgentEvent`, `handleAgentSuccess`, `handleBattleDefeat`,
  `cancelBattle`, `getActiveBattleCount`.
* `OpenCodeService` (src/unnamed/part_001): `processEvent`, `checkForChanges`,
  and the completion tail of `runSession`.
* `WorktreeService` (src/unnamed/part_003): `createWorktreesForBattle` and
  `cleanupBattle`, modelled as a registry of `(battleId, path)` pairs in
  `ServiceState.worktrees`.
* The POST /api/battles route (src/unnamed/part_000).

Asynchronous collaborator results (commit-and-push + PR creation, worktree
removal failures, wall-clock time) are passed in explicitly through `EventCtx`.
A small-step machine `raceStep` additionally models the genuine interleaving
of concurrent success handlers around the `await worktreeService.commitAndPush`
suspension point inside `handleAgentSuccess`.
-/

set_option linter.unusedVariables false

namespace VibeRts

/-- Battle status (src/unnamed/part_004: BattleStatus). -/
inductive BattleStatus
  | pending
  | fighting
  | victory
  | defeat
deriving DecidableEq

/-- Agent status (src/unnamed/part_004: AgentStatus). -/
inductive AgentStatus
  | pending
  | working
  | success
  | failed
  | cancelled
deriving DecidableEq

/-- Activity tag of the streamed detailed state (src/unnamed/part_004: AgentActivity). -/
inductive AgentActivity
  | initializing
  | thinking
  | toolRunning
  | responding
  | waitingPermission
  | retrying
  | idle
  | completed
deriving DecidableEq

/-- Token counters (src/unnamed/part_004: AgentDetailedState.tokens). -/
structure TokenCounts where
  input : Nat
  output : Nat
  reasoning : Nat
deriving DecidableEq

/-- Todo item streamed from a session (src/unnamed/part_004: AgentTodo). -/
structure AgentTodo where
  id : String
  content : String
  status : String
  priority : String
deriving DecidableEq

/-- Pending permission request (src/unnamed/part_004: PendingPermission). -/
structure PendingPermission where
  id : String
  type : String
  title : String
  pattern : Option String
  metadata : List (String × String)
  createdAt : Nat
deriving DecidableEq

/-- Real-time detailed state of one agent session
(src/unnamed/part_004: AgentDetailedState). -/
structure AgentDetailedState where
  activity : AgentActivity
  currentTool : Option String
  currentToolTitle : Option String
  tokens : TokenCounts
  todos : List AgentTodo
  stepsCompleted : Nat
  filesModified : List String
  linesAdded : Nat
  linesDeleted : Nat
  errorCount : Nat
  retryCount : Nat
  lastError : Option String
  pendingPermission : Option PendingPermission
  isFinished : Bool
  finishReason : Option String
  completedAt : Option Nat
deriving DecidableEq

/-- Initial detailed state (src/unnamed/part_001: createInitialDetailedState). -/
def createInitialDetailedState : AgentDetailedState :=
  { activity := .initializing
    currentTool := none
    currentToolTitle := none
    tokens := { input := 0, output := 0, reasoning := 0 }
    todos := []
    stepsCompleted := 0
    filesModified := []
    linesAdded := 0
    linesDeleted := 0
    errorCount := 0
    retryCount := 0
    lastError := none
    pendingPermission := none
    isFinished := false
    finishReason := none
    completedAt := none }

/-- One agent of a battle (src/unnamed/part_004: AgentInstance). -/
structure AgentInstance where
  id : String
  unitIndex : Nat
  status : AgentStatus
  worktreePath : String
  sessionId : Option String
  error : Option String
  detailedState : Option AgentDetailedState
deriving DecidableEq

/-- A battle racing several agents on one issue (src/unnamed/part_004: Battle). -/
structure Battle where
  id : String
  issueId : Nat
  issueNumber : Nat
  issueTitle : String
  issueBody : String
  status : BattleStatus
  agents : List AgentInstance
  startedAt : Nat
  completedAt : Option Nat
  prUrl : Option String
  winningAgentId : Option String
deriving DecidableEq

/-- GitHub issue (src/unnamed/part_004: GitHubIssue, the fields startBattle reads). -/
structure GitHubIssue where
  id : Nat
  number : Nat
  title : String
  body : String
deriving DecidableEq

/-- Game configuration (src/unnamed/part_004: GameConfig). -/
structure GameConfig where
  repoUrl : String
  pat : String
  owner : String
  repo : String
  unitCount : Nat
deriving DecidableEq

/-- Outcomes of the awaited external collaborators, passed explicitly:
`collabOk` is whether `worktreeService.commitAndPush` followed by
`githubService.createPullRequest` succeeded (index.ts:231-241), `prUrl` the
created PR url, `rmFails` whether the filesystem sweep in
`worktreeService.cleanupBattle` throws (part_003:155-157), `now` the wall
clock used for `new Date()`. -/
structure EventCtx where
  collabOk : Bool
  prUrl : String
  rmFails : Bool
  now : Nat
deriving DecidableEq

/-- The orchestrator state: the `battles` map of BattleService (index.ts:95),
the worktree registry of WorktreeService keyed by battle id (part_003), and an
instrumentation log of `cleanupBattle` invocations. -/
structure ServiceState where
  battles : List Battle
  worktrees : List (String × String)
  cleanupAttempts : List String
deriving DecidableEq

/-- Embeds `this.battles.get(battleId)` (index.ts:195). -/
def findBattle : List Battle → String → Option Battle
  | [], _ => none
  | b :: rest, battleId => if b.id = battleId then some b else findBattle rest battleId

/-- Embeds `battle.agents.find((a) => a.id === agentId)` (index.ts:198). -/
def findAgent : List AgentInstance → String → Option AgentInstance
  | [], _ => none
  | a :: rest, agentId => if a.id = agentId then some a else findAgent rest agentId

/-- Re-store a mutated battle object under its id (the source mutates the
battle held in the `battles` map in place). -/
def updateBattle (battles : List Battle) (b : Battle) : List Battle :=
  battles.map (fun x => if x.id = b.id then b else x)

/-- State-level version of `updateBattle`. -/
def setBattle (s : ServiceState) (b : Battle) : ServiceState :=
  { s with battles := updateBattle s.battles b }

/-- Embeds `agent.status = st` for the agent with the given id. -/
def setAgentStatus (b : Battle) (agentId : String) (st : AgentStatus) : Battle :=
  { b with agents := b.agents.map (fun a => if a.id = agentId then { a with status := st } else a) }

/-- Embeds `agent.status = 'failed'; agent.error = ...` (index.ts:212-213). -/
def setAgentFailed (b : Battle) (agentId : String) (err : String) : Battle :=
  { b with agents := b.agents.map (fun a =>
      if a.id = agentId then { a with status := .failed, error := some err } else a) }

/-- The per-agent cancellation in `handleBattleDefeat` (index.ts:273-278):
only agents still `working` are cancelled. -/
def cancelWorking (a : AgentInstance) : AgentInstance :=
  if a.status = .working then { a with status := .cancelled } else a

/-- The per-agent cancellation in the victory block (index.ts:250-255):
every other agent still `working` is cancelled. -/
def cancelWorkingExcept (winnerId : String) (a : AgentInstance) : AgentInstance :=
  if a.id ≠ winnerId ∧ a.status = .working then { a with status := .cancelled } else a

/-- The per-agent cancellation in `cancelBattle` (index.ts:298-303):
agents `working` or `pending` are cancelled. -/
def cancelNonTerminal (a : AgentInstance) : AgentInstance :=
  if a.status = .working ∨ a.status = .pending then { a with status := .cancelled } else a

/-- Embeds `worktreeService.cleanupBattle(battleId)` (part_003:125-158): removes every
registered worktree of the battle; all failures are caught and logged, never
re-raised (the function always returns normally). `rmFails` models the
filesystem sweep throwing, in which case the registry is left as is but the
call still returns normally. Every invocation is recorded in
`cleanupAttempts`. -/
def cleanupBattle (s : ServiceState) (battleId : String) (ctx : EventCtx) : ServiceState :=
  let s1 := { s with cleanupAttempts := s.cleanupAttempts ++ [battleId] }
  if ctx.rmFails then s1
  else { s1 with worktrees := s1.worktrees.filter (fun w => decide (w.1 ≠ battleId)) }

/-- Embeds `BattleService.handleBattleDefeat` (index.ts:268-284): set `defeat` and the
completion timestamp, cancel every agent still `working`, clean up worktrees. -/
def handleBattleDefeat (s : ServiceState) (b : Battle) (ctx : EventCtx) : ServiceState :=
  let b2 := { b with
    status := BattleStatus.defeat
    completedAt := some ctx.now
    agents := b.agents.map cancelWorking }
  cleanupBattle (setBattle s b2) b.id ctx

/-- Embeds `BattleService.handleAgentSuccess` (index.ts:226-266): commit-and-push plus
PR creation are the awaited collaborator whose outcome is `ctx.collabOk`. On
success: `victory`, record winner and PR url, cancel the other `working`
agents, clean up worktrees. On collaborator failure: fall through to
`handleBattleDefeat`. -/
def handleAgentSuccess (s : ServiceState) (b : Battle) (winnerId : String) (ctx : EventCtx) :
    ServiceState :=
  if ctx.collabOk then
    let b2 := { b with
      status := BattleStatus.victory
      completedAt := some ctx.now
      prUrl := some ctx.prUrl
      winningAgentId := some winnerId
      agents := b.agents.map (cancelWorkingExcept winnerId) }
    cleanupBattle (setBattle s b2) b.id ctx
  else
    handleBattleDefeat s b ctx

/-- Events emitted by OpenCodeService sessions
(src/unnamed/part_001: AgentEventCallback). -/
inductive AgentEvent
  | working
  | success
  | failed (error : String)
  | progress (detailedState : AgentDetailedState)
deriving DecidableEq

/-- Embeds `battle.agents.every((a) => a.status === 'failed' || a.status === 'cancelled')`
(index.ts:216-218). -/
def allAgentsFailedOrCancelled (b : Battle) : Bool :=
  b.agents.all (fun a => decide (a.status = .failed ∨ a.status = .cancelled))

/-- Embeds `BattleService.handleAgentEvent` (index.ts:189-224). The if/else-if chain
handles only `success` and `failed`; any other event value falls through and
leaves the state untouched. -/
def handleAgentEvent (s : ServiceState) (battleId agentId : String) (ev : AgentEvent)
    (ctx : EventCtx) : ServiceState :=
  match findBattle s.battles battleId with
  | none => s
  | some b =>
    match findAgent b.agents agentId with
    | none => s
    | some _ =>
      match ev with
      | .success =>
        if b.status ≠ .fighting then s
        else
          let b1 := setAgentStatus b agentId .success
          handleAgentSuccess (setBattle s b1) b1 agentId ctx
      | .failed err =>
        let b1 := setAgentFailed b agentId err
        let s1 := setBattle s b1
        if allAgentsFailedOrCancelled b1 then handleBattleDefeat s1 b1 ctx else s1
      | _ => s

/-- Embeds `BattleService.cancelBattle` (index.ts:286-307). -/
def cancelBattle (s : ServiceState) (battleId : String) (ctx : EventCtx) : ServiceState :=
  match findBattle s.battles battleId with
  | none => s
  | some b =>
    if b.status ≠ .fighting then s
    else
      let b2 := { b with
        status := BattleStatus.defeat
        completedAt := some ctx.now
        agents := b.agents.map cancelNonTerminal }
      cleanupBattle (setBattle s b2) battleId ctx

/-- Error taxonomy surfaced synchronously by `startBattle`. -/
inductive BattleError
  | capacity
  | notConfigured
  | provisioning (message : String)
deriving DecidableEq

/-- Embeds `MAX_CONCURRENT_BATTLES` (index.ts:92). -/
def MAX_CONCURRENT_BATTLES : Nat := 3

/-- The filter of `getActiveBattleCount` (index.ts:106-108). -/
def isActiveBattle (b : Battle) : Bool :=
  decide (b.status = .pending ∨ b.status = .fighting)

/-- Embeds `BattleService.getActiveBattleCount` (index.ts:105-109). -/
def getActiveBattleCount (s : ServiceState) : Nat :=
  (s.battles.filter isActiveBattle).length

/-- Provisioning outcome of `worktreeService.createWorktreesForBattle`
(part_003:43-92): either every `git worktree add` succeeds, or the loop throws
at iteration `k`, in which case the worktrees of iterations `0..k-1` were
already created and stay registered. -/
inductive ProvisionOutcome
  | ok
  | failAt (k : Nat)
deriving DecidableEq

/-- The worktree path for one agent (part_003:52,69). -/
def worktreePathFor (battleId : String) (i : Nat) : String :=
  "worktrees/battle-" ++ battleId ++ "/agent-" ++ toString i

/-- Embeds `WorktreeService.createWorktreesForBattle` (part_003:43-92). Returns the
thrown-or-returned result together with the list of worktrees actually
created before returning or throwing. -/
def createWorktreesForBattle (battleId : String) (unitCount : Nat) (prov : ProvisionOutcome) :
    Except String (List String) × List String :=
  match prov with
  | .ok =>
    let paths := (List.range unitCount).map (worktreePathFor battleId)
    (.ok paths, paths)
  | .failAt k =>
    if k < unitCount then
      (.error "failed to create worktree", (List.range k).map (worktreePathFor battleId))
    else
      let paths := (List.range unitCount).map (worktreePathFor battleId)
      (.ok paths, paths)

/-- One freshly created agent (index.ts:150-156): id is battleId-agent-index,
status `pending`. -/
def mkAgent (battleId : String) (i : Nat) (path : String) : AgentInstance :=
  { id := battleId ++ "-agent-" ++ toString i, unitIndex := i, status := .pending,
    worktreePath := path, sessionId := none, error := none, detailedState := none }

/-- Embeds `this.battles.set(battleId, battle)` for a fresh id (index.ts:137). -/
def insertBattle (battles : List Battle) (b : Battle) : List Battle :=
  battles ++ [b]

/-- Embeds `BattleService.startBattle` (index.ts:111-173). The battle is inserted
`pending` before provisioning; on a provisioning failure it is left `defeat`
with its completion timestamp set and the error re-thrown, with no worktree
cleanup on that path; otherwise one pending agent is created per worktree, the
battle is flipped to `fighting`, and the session launches mark every agent
`working` (the synchronous prefix of `startAgentSession`, index.ts:162-176)
before the battle is returned. -/
def startBattle (s : ServiceState) (config : Option GameConfig) (battleId : String)
    (issue : GitHubIssue) (prov : ProvisionOutcome) (now : Nat) :
    ServiceState × Except BattleError Battle :=
  if MAX_CONCURRENT_BATTLES ≤ getActiveBattleCount s then
    (s, .error .capacity)
  else
    match config with
    | none => (s, .error .notConfigured)
    | some cfg =>
      let battle0 : Battle :=
        { id := battleId, issueId := issue.id, issueNumber := issue.number,
          issueTitle := issue.title, issueBody := issue.body, status := .pending,
          agents := [], startedAt := now, completedAt := none, prUrl := none,
          winningAgentId := none }
      let s1 := { s with battles := insertBattle s.battles battle0 }
      match createWorktreesForBattle battleId cfg.unitCount prov with
      | (.error msg, created) =>
        let s2 := { s1 with worktrees := s1.worktrees ++ created.map (fun p => (battleId, p)) }
        let s3 := setBattle s2 { battle0 with status := .defeat, completedAt := some now }
        (s3, .error (.provisioning msg))
      | (.ok paths, created) =>
        let s2 := { s1 with worktrees := s1.worktrees ++ created.map (fun p => (battleId, p)) }
        let agents := paths.mapIdx (fun i p => mkAgent battleId i p)
        let b1 := { battle0 with agents := agents, status := BattleStatus.fighting }
        let b2 := { b1 with agents := b1.agents.map (fun a => { a with status := AgentStatus.working }) }
        (setBattle s2 b2, .ok b2)

/-- The POST /api/battles route (src/unnamed/part_000:33-58). It validates and
passes the request body unitCount as a second argument
(`battleService.startBattle(issue, input.unitCount)`, part_000:50), but the
BattleService method signature (index.ts:111) has a single parameter, so the
supplied count is dropped and `config.unitCount` is used instead. -/
def startBattleRoute (s : ServiceState) (config : Option GameConfig)
    (requestedUnitCount : Nat) (battleId : String) (issue : GitHubIssue)
    (prov : ProvisionOutcome) (now : Nat) : ServiceState × Except BattleError Battle :=
  startBattle s config battleId issue prov now

/-- Tool part status inside a `message.part.updated` event (part_001:382-399). -/
inductive ToolPartStatus
  | running (title : Option String)
  | completed
  | errored (message : String)
  | otherStatus
deriving DecidableEq

/-- One message part inside a `message.part.updated` event (part_001:377-419). -/
inductive MessagePart
  | tool (toolName : String) (status : ToolPartStatus)
  | reasoning
  | text
  | stepFinish (tokens : Option TokenCounts)
  | retryPart (errMessage : Option String)
  | otherPart
deriving DecidableEq

/-- One diff entry of a `session.diff` event (part_001:507-511). -/
structure DiffEntry where
  additions : Nat
  deletions : Nat
  file : String
deriving DecidableEq

/-- The SDK event vocabulary consumed by `OpenCodeService.processEvent`
(part_001:376-545). Each event carries the session id it is correlated to
(the source probes `props.sessionID`, `props.part.sessionID` or
`props.info.sessionID`, part_001:355-363). -/
inductive SdkEvent
  | messagePartUpdated (sessionID : String) (part : MessagePart)
  | messageUpdated (sessionID : String) (role : String) (tokens : Option TokenCounts)
      (finish : Option String)
  | permissionUpdated (sessionID : String) (perm : PendingPermission)
  | permissionReplied (sessionID : String)
  | sessionStatus (sessionID : String) (statusType : String)
  | sessionIdle (sessionID : String)
  | sessionError (sessionID : String) (errMessage : Option String)
  | fileEdited (sessionID : String) (file : String)
  | sessionDiff (sessionID : String) (diffs : List DiffEntry)
  | todoUpdated (sessionID : String) (todos : List AgentTodo)
  | otherEvent (sessionID : String)
deriving DecidableEq

/-- The session id an event is correlated to. -/
def SdkEvent.sessionID : SdkEvent → String
  | .messagePartUpdated sid _ => sid
  | .messageUpdated sid _ _ _ => sid
  | .permissionUpdated sid _ => sid
  | .permissionReplied sid => sid
  | .sessionStatus sid _ => sid
  | .sessionIdle sid => sid
  | .sessionError sid _ => sid
  | .fileEdited sid _ => sid
  | .sessionDiff sid _ => sid
  | .todoUpdated sid _ => sid
  | .otherEvent sid => sid

/-- Embeds the `setActivity` helper of `processEvent` (part_001:369-374): the activity no
longer changes once `isFinished` is set. -/
def setActivity (st : AgentDetailedState) (a : AgentActivity) : AgentDetailedState :=
  if st.isFinished then st else { st with activity := a }

/-- The file-path union used by `file.edited` and `session.diff`
(part_001:498-520): a path is pushed only if not already present. -/
def pushFile (files : List String) (f : String) : List String :=
  if f ∈ files then files else files ++ [f]

/-- Embeds `OpenCodeService.processEvent` (part_001:346-546). Returns the updated
detailed state and whether the event was recognized as a state update (the
source's boolean return that triggers the progress callback). Events not
correlated to this session, and unrecognized event kinds, are ignored. -/
def processEvent (sessionId : String) (st : AgentDetailedState) (ev : SdkEvent) :
    AgentDetailedState × Bool :=
  if ev.sessionID ≠ sessionId then (st, false)
  else
    match ev with
    | .messagePartUpdated _ part =>
      match part with
      | .tool toolName status =>
        match status with
        | .running title =>
          ({ setActivity st .toolRunning with
              currentTool := some toolName
              currentToolTitle := title }, true)
        | .completed =>
          ({ setActivity st .responding with
              currentTool := none
              currentToolTitle := none }, true)
        | .errored msg =>
          ({ st with errorCount := st.errorCount + 1, lastError := some msg }, true)
        | .otherStatus => (st, true)
      | .reasoning => (setActivity st .thinking, true)
      | .text => (setActivity st .responding, true)
      | .stepFinish tokens =>
        let st1 := { st with stepsCompleted := st.stepsCompleted + 1 }
        match tokens with
        | some t =>
          ({ st1 with tokens :=
              { input := st1.tokens.input + t.input
                output := st1.tokens.output + t.output
                reasoning := st1.tokens.reasoning + t.reasoning } }, true)
        | none => (st1, true)
      | .retryPart errMessage =>
        let st1 := { setActivity st .retrying with retryCount := st.retryCount + 1 }
        match errMessage with
        | some m => ({ st1 with lastError := some m }, true)
        | none => (st1, true)
      | .otherPart => (st, true)
    | .messageUpdated _ role tokens finish =>
      if role = "assistant" then
        let st1 :=
          match tokens with
          | some t =>
            { st with tokens :=
                { input := max st.tokens.input t.input
                  output := max st.tokens.output t.output
                  reasoning := max st.tokens.reasoning t.reasoning } }
          | none => st
        match finish with
        | some f => ({ st1 with finishReason := some f }, true)
        | none => (st1, true)
      else (st, true)
    | .permissionUpdated _ perm =>
      ({ setActivity st .waitingPermission with pendingPermission := some perm }, true)
    | .permissionReplied _ =>
      (setActivity { st with pendingPermission := none } .responding, true)
    | .sessionStatus _ statusType =>
      if statusType = "idle" then (setActivity st .idle, true)
      else if statusType = "busy" then
        if st.activity = .initializing ∨ st.activity = .idle then
          (setActivity st .responding, true)
        else (st, true)
      else if statusType = "retry" then (setActivity st .retrying, true)
      else (st, true)
    | .sessionIdle _ => (setActivity st .idle, true)
    | .sessionError _ errMessage =>
      let st1 := { st with errorCount := st.errorCount + 1 }
      match errMessage with
      | some m => ({ st1 with lastError := some m }, true)
      | none => (st1, true)
    | .fileEdited _ file =>
      ({ st with filesModified := pushFile st.filesModified file }, true)
    | .sessionDiff _ diffs =>
      ({ st with
         filesModified := diffs.foldl (fun acc d => pushFile acc d.file) st.filesModified
         linesAdded := diffs.foldl (fun t d => t + d.additions) 0
         linesDeleted := diffs.foldl (fun t d => t + d.deletions) 0 }, true)
    | .todoUpdated _ todos => ({ st with todos := todos }, true)
    | .otherEvent _ => (st, false)

/-- The `AgentSession.status` field (part_001:22). -/
inductive SessionInternalStatus
  | working
  | success
  | failed
deriving DecidableEq

/-- The event a session reports to the orchestrator at completion. -/
inductive EmittedEvent
  | success
  | failed (error : String)
deriving DecidableEq

/-- Embeds `OpenCodeService.checkForChanges` (part_001:289-299): `git status
--porcelain` output trimmed and tested for non-emptiness; an exec failure
(`none`) counts as no changes. -/
def checkForChanges (gitStatusOut : Option String) : Bool :=
  match gitStatusOut with
  | some out => decide (0 < out.trim.length)
  | none => false

/-- The completion tail of `OpenCodeService.runSession` (part_001:249-269):
once the blocking prompt call has returned, if the session was cancelled
during execution nothing is reported; otherwise the verdict is taken solely
from `checkForChanges` on the workspace — the session's self-reported result
(`sessionSelfReport`, the value returned by `client.session.prompt`) is never
consulted. -/
def runSessionCompletion (status : SessionInternalStatus) (gitStatusOut : Option String)
    (sessionSelfReport : String) : SessionInternalStatus × Option EmittedEvent :=
  match status with
  | .working =>
    if checkForChanges gitStatusOut then (.success, some .success)
    else (.failed, some (.failed "No files were modified"))
  | s => (s, none)

/-- State of the interleaving model of the per-battle success race. `battle`
is the shared mutable Battle object; `inflight` the success handlers that have
passed the `battle.status !== 'fighting'` guard (index.ts:205), marked their
agent `success` (index.ts:209) and are suspended on the awaited
commit-and-push / PR-creation collaborator inside `handleAgentSuccess`
(index.ts:231-241). `winnersRecorded` logs every assignment to
`battle.winningAgentId` (index.ts:247) and `victorySets` counts every
assignment of `victory` to `battle.status` (index.ts:244). -/
structure RaceState where
  battle : Battle
  inflight : List String
  winnersRecorded : List String
  victorySets : Nat
deriving DecidableEq

/-- Scheduler actions of the interleaving model: delivery of a success or
failure report (running the synchronous prefix of `handleAgentEvent`), or the
resumption of a suspended success handler with the collaborator outcome. -/
inductive RaceAction
  | deliverSuccess (agentId : String)
  | deliverFailed (agentId : String) (error : String)
  | resumeCollab (agentId : String) (ok : Bool)
deriving DecidableEq

/-- One scheduler step of the interleaved semantics of
`BattleService.handleAgentEvent` / `handleAgentSuccess` /
`handleBattleDefeat` (index.ts:189-284). `deliverSuccess` runs the handler up
to the commit await; `resumeCollab` runs the rest of `handleAgentSuccess`
after the await — note the source re-checks nothing after the await. -/
def raceStep (st : RaceState) (act : RaceAction) (now : Nat) (prUrl : String) : RaceState :=
  match act with
  | .deliverSuccess aid =>
    match findAgent st.battle.agents aid with
    | none => st
    | some _ =>
      if st.battle.status ≠ .fighting then st
      else { st with
        battle := setAgentStatus st.battle aid .success
        inflight := st.inflight ++ [aid] }
  | .deliverFailed aid err =>
    match findAgent st.battle.agents aid with
    | none => st
    | some _ =>
      let b1 := setAgentFailed st.battle aid err
      if allAgentsFailedOrCancelled b1 then
        { st with battle := { b1 with
            status := BattleStatus.defeat
            completedAt := some now
            agents := b1.agents.map cancelWorking } }
      else { st with battle := b1 }
  | .resumeCollab aid ok =>
    if st.inflight.contains aid then
      let st1 := { st with inflight := st.inflight.erase aid }
      if ok then
        { st1 with
          battle := { st1.battle with
            status := BattleStatus.victory
            completedAt := some now
            winningAgentId := some aid
            prUrl := some prUrl
            agents := st1.battle.agents.map (cancelWorkingExcept aid) }
          winnersRecorded := st1.winnersRecorded ++ [aid]
          victorySets := st1.victorySets + 1 }
      else
        { st1 with battle := { st1.battle with
            status := BattleStatus.defeat
            completedAt := some now
            agents := st1.battle.agents.map cancelWorking } }
    else st

/-- A concrete agent fixture with the id shape of index.ts:151. -/
def exAgent (battleId : String) (i : Nat) (st : AgentStatus) : AgentInstance :=
  { id := battleId ++ "-agent-" ++ toString i, unitIndex := i, status := st,
    worktreePath := worktreePathFor battleId i, sessionId := none, error := none,
    detailedState := none }

/-- A concrete issue fixture. -/
def exIssue : GitHubIssue := { id := 100, number := 7, title := "title", body := "body" }

/-- A concrete configuration with unitCount 3. -/
def exConfig3 : GameConfig :=
  { repoUrl := "url", pat := "pat", owner := "own", repo := "rep", unitCount := 3 }

/-- A concrete configuration with unitCount 2. -/
def exConfig2 : GameConfig := { exConfig3 with unitCount := 2 }

/-- A concrete event context: collaborator succeeds, cleanup sweep succeeds. -/
def exCtx : EventCtx := { collabOk := true, prUrl := "prUrl", rmFails := false, now := 9 }

/-- A concrete fighting battle with two working agents. -/
def exFightingBattle : Battle :=
  { id := "b1", issueId := 100, issueNumber := 7, issueTitle := "title", issueBody := "body",
    status := .fighting,
    agents := [exAgent "b1" 0 .working, exAgent "b1" 1 .working],
    startedAt := 1, completedAt := none, prUrl := none, winningAgentId := none }

/-- A concrete fighting battle with no agents, under an arbitrary id. -/
def exBareBattle (battleId : String) : Battle :=
  { id := battleId, issueId := 100, issueNumber := 7, issueTitle := "title",
    issueBody := "body", status := .fighting, agents := [], startedAt := 1,
    completedAt := none, prUrl := none, winningAgentId := none }

/-- The empty service state. -/
def exEmptyState : ServiceState := { battles := [], worktrees := [], cleanupAttempts := [] }

/-- A service state already holding three active battles (the ceiling). -/
def exFullState : ServiceState :=
  { battles := [exBareBattle "a1", exBareBattle "a2", exBareBattle "a3"],
    worktrees := [], cleanupAttempts := [] }

/-- A service state whose only battle is already terminal (`defeat` after a
cancellation): its lone agent is `cancelled` and the completion timestamp 5. -/
def exDefeatState : ServiceState :=
  { battles := [ { exBareBattle "b1" with
      status := BattleStatus.defeat
      agents := [exAgent "b1" 0 .cancelled]
      completedAt := some 5 } ],
    worktrees := [], cleanupAttempts := [] }

/-- A service state with one fighting battle and worktrees of two battles. -/
def exFightState : ServiceState :=
  { battles := [exFightingBattle],
    worktrees := [("b1", "w0"), ("b2", "w1")], cleanupAttempts := [] }

/-- Initial state of the race interleaving: exFightingBattle, no handler in
flight. -/
def raceInit : RaceState :=
  { battle := exFightingBattle, inflight := [], winnersRecorded := [], victorySets := 0 }

/-- The racing schedule: agent 1's success report is delivered while agent 0's
success handler is suspended on the awaited commit-and-push; both collaborator
calls then succeed. -/
def raceTrace : List RaceAction :=
  [ .deliverSuccess "b1-agent-0", .deliverSuccess "b1-agent-1",
    .resumeCollab "b1-agent-0" true, .resumeCollab "b1-agent-1" true ]

/-- The state after running the racing schedule. -/
def raceFinal : RaceState :=
  raceTrace.foldl (fun st a => raceStep st a 2 "prUrl") raceInit

/-- State after a late `failed` event reaches the already-terminal battle. -/
def c4After : ServiceState :=
  handleAgentEvent exDefeatState "b1" "b1-agent-0" (.failed "late error") exCtx

/-- Result of the POST route under config.unitCount = 3 with a request body
unitCount of 2. -/
def c7Result : ServiceState × Except BattleError Battle :=
  startBattleRoute exEmptyState (some exConfig3) 2 "b1" exIssue .ok 1

/-- Result of startBattle when provisioning throws at iteration 1 of 2. -/
def c9Result : ServiceState × Except BattleError Battle :=
  startBattle exEmptyState (some exConfig2) "b1" exIssue (.failAt 1) 1

/-- An event context whose commit-and-push / PR collaborator fails. -/
def exCtxFail : EventCtx := { collabOk := false, prUrl := "prUrl", rmFails := false, now := 9 }

/-- A battle found in the list has the id it was looked up under. -/
theorem findBattle_id (l : List Battle) (battleId : String) (b : Battle)
    (h : findBattle l battleId = some b) : b.id = battleId := by
  induction l with
  | nil => simp [findBattle] at h
  | cons x rest ih =>
    unfold findBattle at h
    by_cases hx : x.id = battleId
    · rw [if_pos hx] at h
      injection h with h2
      rw [← h2]
      exact hx
    · rw [if_neg hx] at h
      exact ih h

/-- An agent found in the list has the id it was looked up under. -/
theorem findAgent_id (l : List AgentInstance) (agentId : String) (a : AgentInstance)
    (h : findAgent l agentId = some a) : a.id = agentId := by
  induction l with
  | nil => simp [findAgent] at h
  | cons x rest ih =>
    unfold findAgent at h
    by_cases hx : x.id = agentId
    · rw [if_pos hx] at h
      injection h with h2
      rw [← h2]
      exact hx
    · rw [if_neg hx] at h
      exact ih h

/-- Looking a battle up after re-storing a battle under the same id yields the
re-stored battle. -/
theorem findBattle_updateBattle (l : List Battle) (battleId : String) (b b2 : Battle)
    (h : findBattle l battleId = some b) (hid : b2.id = battleId) :
    findBattle (updateBattle l b2) battleId = some b2 := by
  induction l with
  | nil => simp [findBattle] at h
  | cons x rest ih =>
    unfold findBattle at h
    unfold updateBattle at *
    simp only [List.map_cons]
    by_cases hx : x.id = battleId
    · have hxb : x.id = b2.id := by rw [hx, hid]
      rw [if_pos hxb]
      unfold findBattle
      rw [if_pos hid]
    · have hxb : ¬ x.id = b2.id := by rw [hid]; exact hx
      rw [if_neg hxb]
      unfold findBattle
      rw [if_neg hx]
      rw [if_neg hx] at h
      exact ih h

/-- Mapping an id-preserving function over the agents commutes with lookup. -/
theorem findAgent_map (l : List AgentInstance) (agentId : String)
    (f : AgentInstance → AgentInstance) (hf : ∀ a, (f a).id = a.id) :
    findAgent (l.map f) agentId = (findAgent l agentId).map f := by
  induction l with
  | nil => simp [findAgent]
  | cons a rest ih =>
    simp only [List.map_cons]
    unfold findAgent
    by_cases ha : a.id = agentId
    · rw [if_pos (by rw [hf]; exact ha), if_pos ha]
      rfl
    · rw [if_neg (by rw [hf]; exact ha), if_neg ha]
      exact ih

/-- Worktree cleanup does not touch the battles map. -/
theorem cleanupBattle_battles (s : ServiceState) (battleId : String) (ctx : EventCtx) :
    (cleanupBattle s battleId ctx).battles = s.battles := by
  unfold cleanupBattle
  cases hc : ctx.rmFails <;> simp [hc]

/-- Every cleanup invocation is recorded, whether or not the sweep fails. -/
theorem cleanupBattle_attempts (s : ServiceState) (battleId : String) (ctx : EventCtx) :
    (cleanupBattle s battleId ctx).cleanupAttempts = s.cleanupAttempts ++ [battleId] := by
  unfold cleanupBattle
  cases hc : ctx.rmFails <;> simp [hc]

/-- The id of an agent is preserved by the defeat-path cancellation. -/
theorem cancelWorking_id (a : AgentInstance) : (cancelWorking a).id = a.id := by
  unfold cancelWorking
  split <;> rfl

/-- The id of an agent is preserved by the victory-path cancellation. -/
theorem cancelWorkingExcept_id (winnerId : String) (a : AgentInstance) :
    (cancelWorkingExcept winnerId a).id = a.id := by
  unfold cancelWorkingExcept
  split <;> rfl

/-- Membership in the deduplicating push. -/
theorem mem_pushFile (files : List String) (f x : String) :
    x ∈ pushFile files f ↔ x ∈ files ∨ x = f := by
  unfold pushFile
  by_cases h : f ∈ files
  · rw [if_pos h]
    constructor
    · exact Or.inl
    · rintro (hx | rfl)
      · exact hx
      · exact h
  · rw [if_neg h]
    simp

/-- The deduplicating push preserves duplicate-freedom. -/
theorem nodup_pushFile (files : List String) (f : String) (h : files.Nodup) :
    (pushFile files f).Nodup := by
  unfold pushFile
  by_cases hf : f ∈ files
  · rwa [if_pos hf]
  · rw [if_neg hf]
    simp [List.nodup_append, h, hf]

/-- Membership after folding the deduplicating push over a diff list. -/
theorem mem_foldl_pushFile (ds : List DiffEntry) (files : List String) (x : String) :
    (x ∈ ds.foldl (fun acc d => pushFile acc d.file) files) ↔
      x ∈ files ∨ x ∈ ds.map DiffEntry.file := by
  induction ds generalizing files with
  | nil => simp
  | cons d rest ih =>
    simp only [List.foldl_cons, List.map_cons, List.mem_cons]
    rw [ih, mem_pushFile]
    tauto

/-- Folding the deduplicating push preserves duplicate-freedom. -/
theorem nodup_foldl_pushFile (ds : List DiffEntry) (files : List String)
    (h : files.Nodup) : (ds.foldl (fun acc d => pushFile acc d.file) files).Nodup := by
  induction ds generalizing files with
  | nil => simpa using h
  | cons d rest ih => exact ih _ (nodup_pushFile _ _ h)

/-- The accumulating fold over diff entries computes the sum of a field. -/
theorem foldl_add_map (ds : List DiffEntry) (g : DiffEntry → Nat) (n : Nat) :
    ds.foldl (fun t d => t + g d) n = n + (ds.map g).sum := by
  induction ds generalizing n with
  | nil => simp
  | cons d rest ih =>
    rw [List.foldl_cons, ih, List.map_cons, List.sum_cons]
    omega

/-- Claim C1: the spec requires that across all interleavings of agent success
reports exactly one agent is ever recorded as the winner and the battle
reaches `victory` at most once. The code violates this: under the schedule
`raceTrace` — agent 1's success report delivered while agent 0's handler is
suspended on the awaited commit-and-push — both reports pass the
`battle.status !== 'fighting'` guard, both agents end `success`,
`winningAgentId` is assigned twice, and the victory block runs twice. -/
theorem c1_success_race_two_winners_recorded :
    raceFinal.winnersRecorded = ["b1-agent-0", "b1-agent-1"] ∧
    raceFinal.victorySets = 2 ∧
    raceFinal.battle.agents.map AgentInstance.status = [.success, .success] := by
  decide

/-- Claim C2: a startBattle call while the number of non-terminal battles is
at least `MAX_CONCURRENT_BATTLES` fails with the capacity error and leaves the
entire service state — battles map, worktrees, cleanup log — unchanged. -/
theorem c2_capacity_error_state_unchanged :
    ∀ (s : ServiceState) (config : Option GameConfig) (battleId : String)
      (issue : GitHubIssue) (prov : ProvisionOutcome) (now : Nat),
      MAX_CONCURRENT_BATTLES ≤ getActiveBattleCount s →
      startBattle s config battleId issue prov now = (s, .error .capacity) := by
  intro s config battleId issue prov now h
  unfold startBattle
  rw [if_pos h]

/-- Witness for C2 at a state already holding three active battles. -/
theorem c2_witness :
    MAX_CONCURRENT_BATTLES ≤ getActiveBattleCount exFullState ∧
    startBattle exFullState (some exConfig3) "b9" exIssue .ok 4 =
      (exFullState, .error .capacity) :=
  ⟨by decide,
   c2_capacity_error_state_unchanged exFullState (some exConfig3) "b9" exIssue .ok 4 (by decide)⟩

/-- Claim C3: when the blocking prompt call returns without cancellation, the
agent is reported `success` exactly when the workspace shows uncommitted
changes (trimmed `git status --porcelain` output non-empty), and `failed` with
the no-changes error exactly when it shows none — independently of the
session's self-reported result. -/
theorem c3_success_iff_uncommitted_changes :
    ∀ (out r1 r2 : String),
      ((runSessionCompletion .working (some out) r1).2 = some .success ↔ 0 < out.trim.length)
    ∧ ((runSessionCompletion .working (some out) r1).2 =
          some (.failed "No files were modified") ↔ out.trim.length = 0)
    ∧ runSessionCompletion .working (some out) r1 = runSessionCompletion .working (some out) r2 := by
  intro out r1 r2
  refine ⟨?_, ?_, rfl⟩
  · unfold runSessionCompletion checkForChanges
    by_cases h : 0 < out.trim.length
    · simp [h]
    · simp [h]
  · unfold runSessionCompletion checkForChanges
    by_cases h : 0 < out.trim.length
    · simp [h]
      omega
    · simp [h]
      omega

/-- Claim C4: the spec requires a late failure event after a terminal battle
status to be a no-op. The code violates this: on the already-`defeat` battle
of `exDefeatState` (agent `cancelled`, completion timestamp 5), a late
`failed` event re-marks the agent `failed` and reruns the defeat handler,
moving the completion timestamp to 9. -/
theorem c4_late_failure_event_not_ignored :
    (findBattle exDefeatState.battles "b1").map Battle.completedAt = some (some 5) ∧
    (findBattle exDefeatState.battles "b1").map (fun b => b.agents.map AgentInstance.status) =
      some [.cancelled] ∧
    (findBattle c4After.battles "b1").map Battle.completedAt = some (some 9) ∧
    (findBattle c4After.battles "b1").map (fun b => b.agents.map AgentInstance.status) =
      some [.failed] := by
  decide

/-- Claim C5: whole-message token reports update each stored counter to the
maximum of stored and reported values; each diff summary replaces the
cumulative added and deleted line counts with the totals of the latest report;
and modified-file paths accumulate as a duplicate-free union, both for
`file.edited` and `session.diff` events. -/
theorem c5_stream_accounting :
    ∀ (sid : String) (st : AgentDetailedState) (t : TokenCounts) (finish : Option String)
      (ds : List DiffEntry) (f : String),
      st.filesModified.Nodup →
      ((processEvent sid st (.messageUpdated sid "assistant" (some t) finish)).1.tokens =
          { input := max st.tokens.input t.input
            output := max st.tokens.output t.output
            reasoning := max st.tokens.reasoning t.reasoning }
      ∧ (processEvent sid st (.sessionDiff sid ds)).1.linesAdded =
          (ds.map DiffEntry.additions).sum
      ∧ (processEvent sid st (.sessionDiff sid ds)).1.linesDeleted =
          (ds.map DiffEntry.deletions).sum
      ∧ (processEvent sid st (.sessionDiff sid ds)).1.filesModified.Nodup
      ∧ (∀ x, x ∈ (processEvent sid st (.sessionDiff sid ds)).1.filesModified ↔
            x ∈ st.filesModified ∨ x ∈ ds.map DiffEntry.file)
      ∧ (processEvent sid st (.fileEdited sid f)).1.filesModified.Nodup
      ∧ (∀ x, x ∈ (processEvent sid st (.fileEdited sid f)).1.filesModified ↔
            x ∈ st.filesModified ∨ x = f)) := by
  intro sid st t finish ds f hnd
  refine ⟨?_, ?_, ?_, ?_, ?_, ?_, ?_⟩
  · unfold processEvent
    simp only [SdkEvent.sessionID]
    rw [if_neg (fun hcon => hcon rfl)]
    cases finish <;> rfl
  · unfold processEvent
    simp only [SdkEvent.sessionID]
    rw [if_neg (fun hcon => hcon rfl)]
    show ds.foldl (fun t d => t + d.additions) 0 = (ds.map DiffEntry.additions).sum
    rw [foldl_add_map]
    omega
  · unfold processEvent
    simp only [SdkEvent.sessionID]
    rw [if_neg (fun hcon => hcon rfl)]
    show ds.foldl (fun t d => t + d.deletions) 0 = (ds.map DiffEntry.deletions).sum
    rw [foldl_add_map]
    omega
  · unfold processEvent
    simp only [SdkEvent.sessionID]
    rw [if_neg (fun hcon => hcon rfl)]
    exact nodup_foldl_pushFile ds st.filesModified hnd
  · intro x
    unfold processEvent
    simp only [SdkEvent.sessionID]
    rw [if_neg (fun hcon => hcon rfl)]
    exact mem_foldl_pushFile ds st.filesModified x
  · unfold processEvent
    simp only [SdkEvent.sessionID]
    rw [if_neg (fun hcon => hcon rfl)]
    exact nodup_pushFile st.filesModified f hnd
  · intro x
    unfold processEvent
    simp only [SdkEvent.sessionID]
    rw [if_neg (fun hcon => hcon rfl)]
    exact mem_pushFile st.filesModified f x

/-- Witness for C5 at the initial detailed state with a concrete token report,
diff list and edited file. -/
theorem c5_witness :
    createInitialDetailedState.filesModified.Nodup
    ∧ (processEvent "s" createInitialDetailedState
        (.messageUpdated "s" "assistant"
          (some { input := 5, output := 6, reasoning := 7 }) none)).1.tokens =
        { input := max createInitialDetailedState.tokens.input 5
          output := max createInitialDetailedState.tokens.output 6
          reasoning := max createInitialDetailedState.tokens.reasoning 7 }
    ∧ (processEvent "s" createInitialDetailedState
        (.sessionDiff "s" [⟨1, 2, "a"⟩, ⟨3, 4, "a"⟩])).1.linesAdded =
        (([⟨1, 2, "a"⟩, ⟨3, 4, "a"⟩] : List DiffEntry).map DiffEntry.additions).sum
    ∧ ("a" ∈ (processEvent "s" createInitialDetailedState
        (.fileEdited "s" "a")).1.filesModified ↔
        "a" ∈ createInitialDetailedState.filesModified ∨ "a" = "a") := by
  have h := c5_stream_accounting "s" createInitialDetailedState
    { input := 5, output := 6, reasoning := 7 } none
    [⟨1, 2, "a"⟩, ⟨3, 4, "a"⟩] "a" (by decide)
  exact ⟨by decide, h.1, h.2.1, h.2.2.2.2.2.2 "a"⟩

/-- Claim C6: cancelBattle is a no-op unless the battle exists and is
`fighting`; when it is, the battle becomes `defeat` with its completion
timestamp set, every `working` or `pending` agent becomes `cancelled` while
terminal agents keep their status (the `cancelNonTerminal` map), and all of
the battle's registered worktrees are released. -/
theorem c6_cancel_battle_spec :
    (∀ (s : ServiceState) (battleId : String) (ctx : EventCtx),
        findBattle s.battles battleId = none → cancelBattle s battleId ctx = s)
  ∧ (∀ (s : ServiceState) (battleId : String) (ctx : EventCtx) (b : Battle),
        findBattle s.battles battleId = some b → b.status ≠ .fighting →
        cancelBattle s battleId ctx = s)
  ∧ (∀ (s : ServiceState) (battleId : String) (ctx : EventCtx) (b : Battle),
        findBattle s.battles battleId = some b → b.status = .fighting →
        ctx.rmFails = false →
        findBattle (cancelBattle s battleId ctx).battles battleId =
          some { b with
            status := BattleStatus.defeat
            completedAt := some ctx.now
            agents := b.agents.map cancelNonTerminal }
        ∧ (cancelBattle s battleId ctx).worktrees =
            s.worktrees.filter (fun w => decide (w.1 ≠ battleId)))
  ∧ (∀ a : AgentInstance,
        ((a.status = .working ∨ a.status = .pending) →
          (cancelNonTerminal a).status = .cancelled)
      ∧ (a.status ≠ .working → a.status ≠ .pending → cancelNonTerminal a = a)) := by
  refine ⟨?_, ?_, ?_, ?_⟩
  · intro s battleId ctx h
    unfold cancelBattle
    rw [h]
  · intro s battleId ctx b h hst
    unfold cancelBattle
    rw [h]
    simp [hst]
  · intro s battleId ctx b h hst hrm
    have hbid : b.id = battleId := findBattle_id _ _ _ h
    constructor
    · unfold cancelBattle
      rw [h]
      simp only [hst, ne_eq, not_true_eq_false, if_false]
      rw [cleanupBattle_battles]
      exact findBattle_updateBattle s.battles battleId b _ h hbid
    · unfold cancelBattle
      rw [h]
      simp only [hst, ne_eq, not_true_eq_false, if_false]
      unfold cleanupBattle
      rw [hrm]
      simp [setBattle]
  · intro a
    constructor
    · intro hw
      unfold cancelNonTerminal
      rw [if_pos hw]
    · intro h1 h2
      unfold cancelNonTerminal
      rw [if_neg (by rintro (h | h) <;> [exact h1 h; exact h2 h])]

/-- Witness for C6: a terminal battle is untouched; cancelling the concrete
fighting battle yields defeat, cancelled agents and released worktrees. -/
theorem c6_witness :
    cancelBattle exDefeatState "b1" exCtx = exDefeatState
    ∧ findBattle (cancelBattle exFightState "b1" exCtx).battles "b1" =
        some { exFightingBattle with
          status := BattleStatus.defeat
          completedAt := some exCtx.now
          agents := exFightingBattle.agents.map cancelNonTerminal }
    ∧ (cancelBattle exFightState "b1" exCtx).worktrees =
        exFightState.worktrees.filter (fun w => decide (w.1 ≠ "b1")) := by
  refine ⟨?_, ?_, ?_⟩
  · exact c6_cancel_battle_spec.2.1 exDefeatState "b1" exCtx
      { exBareBattle "b1" with
        status := BattleStatus.defeat
        agents := [exAgent "b1" 0 .cancelled]
        completedAt := some 5 } (by decide) (by decide)
  · exact (c6_cancel_battle_spec.2.2.1 exFightState "b1" exCtx exFightingBattle
      (by decide) rfl rfl).1
  · exact (c6_cancel_battle_spec.2.2.1 exFightState "b1" exCtx exFightingBattle
      (by decide) rfl rfl).2

/-- Claim C7: the spec requires the number of agents to equal the attempt
count supplied by the caller. The code violates this: the POST route passes
the request's unitCount (here 2) as a second argument, but the service
signature has one parameter, so `config.unitCount` (here 3) is used and the
returned battle owns 3 agents. -/
theorem c7_agent_count_taken_from_config_not_request :
    c7Result.2.toOption.map (fun b => b.agents.length) = some exConfig3.unitCount
    ∧ exConfig3.unitCount = 3
    ∧ ¬ (3 : Nat) = 2 := by
  decide

/-- Claim C8: the spec requires a progress event to merge the reported
DetailedState into the agent and be forwarded to observers. The code violates
this: `handleAgentEvent` has branches only for `success` and `failed`, so a
`progress` event leaves the whole service state — in particular every agent's
`detailedState` — unchanged, and nothing is forwarded. -/
theorem c8_progress_events_dropped_by_orchestrator :
    ∀ (s : ServiceState) (battleId agentId : String) (d : AgentDetailedState) (ctx : EventCtx),
      handleAgentEvent s battleId agentId (.progress d) ctx = s := by
  intro s battleId agentId d ctx
  unfold handleAgentEvent
  split
  · rfl
  · split
    · rfl
    · rfl

/-- Counterexample for C9: when worktree provisioning throws at iteration 1
of 2, the battle is left `defeat` but the worktree created at iteration 0
stays registered and no cleanup is ever attempted on this path. -/
theorem c9_provisioning_failure_leaves_worktree :
    c9Result.1.worktrees = [("b1", "worktrees/battle-b1/agent-0")] ∧
    c9Result.1.cleanupAttempts = [] ∧
    (findBattle c9Result.1.battles "b1").map Battle.status = some BattleStatus.defeat := by
  decide

/-- Claim C9 (amended): on the terminal transitions reached through agent
events or cancellation — victory, publish-failure defeat, all-failed defeat,
cancel — workspace cleanup is always attempted and its failures are never
re-raised (cleanup returns normally and records the attempt whether or not
the sweep fails); but a provisioning failure during startBattle leaves the
battle `defeat` without attempting cleanup, so the already-created worktrees
stay registered. -/
theorem c9_amended_cleanup_on_terminal_paths :
    (∀ (s : ServiceState) (b : Battle) (winnerId : String) (ctx : EventCtx),
        (handleAgentSuccess s b winnerId ctx).cleanupAttempts = s.cleanupAttempts ++ [b.id])
  ∧ (∀ (s : ServiceState) (b : Battle) (ctx : EventCtx),
        (handleBattleDefeat s b ctx).cleanupAttempts = s.cleanupAttempts ++ [b.id])
  ∧ (∀ (s : ServiceState) (battleId : String) (ctx : EventCtx) (b : Battle),
        findBattle s.battles battleId = some b → b.status = .fighting →
        (cancelBattle s battleId ctx).cleanupAttempts = s.cleanupAttempts ++ [battleId])
  ∧ (∀ (s : ServiceState) (battleId : String) (ctx : EventCtx),
        (cleanupBattle s battleId ctx).battles = s.battles
      ∧ (cleanupBattle s battleId ctx).cleanupAttempts = s.cleanupAttempts ++ [battleId])
  ∧ (∀ (s : ServiceState) (cfg : GameConfig) (battleId : String) (issue : GitHubIssue)
        (k : Nat) (now : Nat),
        getActiveBattleCount s < MAX_CONCURRENT_BATTLES → k < cfg.unitCount →
        (startBattle s (some cfg) battleId issue (.failAt k) now).1.cleanupAttempts
            = s.cleanupAttempts
        ∧ (startBattle s (some cfg) battleId issue (.failAt k) now).1.worktrees
            = s.worktrees ++ (List.range k).map (fun i => (battleId, worktreePathFor battleId i))) := by
  refine ⟨?_, ?_, ?_, ?_, ?_⟩
  · intro s b winnerId ctx
    unfold handleAgentSuccess handleBattleDefeat
    cases hc : ctx.collabOk <;> simp [cleanupBattle_attempts, setBattle]
  · intro s b ctx
    unfold handleBattleDefeat
    simp [cleanupBattle_attempts, setBattle]
  · intro s battleId ctx b h hst
    unfold cancelBattle
    rw [h]
    simp [hst, cleanupBattle_attempts, setBattle]
  · intro s battleId ctx
    exact ⟨cleanupBattle_battles s battleId ctx, cleanupBattle_attempts s battleId ctx⟩
  · intro s cfg battleId issue k now hcap hk
    unfold startBattle
    rw [if_neg (by omega)]
    simp only [createWorktreesForBattle]
    rw [if_pos hk]
    constructor
    · rfl
    · simp [setBattle, List.map_map, Function.comp]

/-- Witness for C9 amended, at the concrete fixtures. -/
theorem c9_witness :
    (handleAgentSuccess exEmptyState exFightingBattle "b1-agent-0" exCtx).cleanupAttempts =
        exEmptyState.cleanupAttempts ++ ["b1"]
    ∧ (startBattle exEmptyState (some exConfig2) "b1" exIssue (.failAt 1) 1).1.cleanupAttempts =
        exEmptyState.cleanupAttempts
    ∧ (startBattle exEmptyState (some exConfig2) "b1" exIssue (.failAt 1) 1).1.worktrees =
        exEmptyState.worktrees ++ (List.range 1).map (fun i => ("b1", worktreePathFor "b1" i)) := by
  refine ⟨?_, ?_, ?_⟩
  · exact c9_amended_cleanup_on_terminal_paths.1 exEmptyState exFightingBattle "b1-agent-0" exCtx
  · exact (c9_amended_cleanup_on_terminal_paths.2.2.2.2 exEmptyState exConfig2 "b1" exIssue 1 1
      (by decide) (by decide)).1
  · exact (c9_amended_cleanup_on_terminal_paths.2.2.2.2 exEmptyState exConfig2 "b1" exIssue 1 1
      (by decide) (by decide)).2

/-- Claim C10: if the commit-and-publish collaborator fails after an agent
reports success on a fighting battle, the battle transitions to `defeat`
while the reporting agent keeps status `success` — so a `defeat` battle can
contain a `success` agent. -/
theorem c10_publish_failure_keeps_winner_success :
    ∀ (s : ServiceState) (battleId agentId : String) (ctx : EventCtx) (b : Battle)
      (a : AgentInstance),
      findBattle s.battles battleId = some b →
      findAgent b.agents agentId = some a →
      b.status = .fighting →
      ctx.collabOk = false →
      (findBattle (handleAgentEvent s battleId agentId .success ctx).battles battleId).map
          Battle.status = some BattleStatus.defeat
      ∧ ((findBattle (handleAgentEvent s battleId agentId .success ctx).battles battleId).bind
          (fun b2 => findAgent b2.agents agentId)).map AgentInstance.status =
          some AgentStatus.success := by
  intro s battleId agentId ctx b a hb ha hst hc
  have hbid : b.id = battleId := findBattle_id _ _ _ hb
  have haid : a.id = agentId := findAgent_id _ _ _ ha
  have hred : handleAgentEvent s battleId agentId .success ctx =
      cleanupBattle (setBattle (setBattle s (setAgentStatus b agentId .success))
        { setAgentStatus b agentId .success with
          status := BattleStatus.defeat
          completedAt := some ctx.now
          agents := (setAgentStatus b agentId .success).agents.map cancelWorking })
        (setAgentStatus b agentId .success).id ctx := by
    unfold handleAgentEvent
    rw [hb]
    simp only [ha]
    rw [if_neg (by simp [hst])]
    unfold handleAgentSuccess
    rw [hc]
    simp only [Bool.false_eq_true, if_false]
    unfold handleBattleDefeat
    rfl
  have h1 : findBattle (updateBattle s.battles (setAgentStatus b agentId .success)) battleId =
      some (setAgentStatus b agentId .success) :=
    findBattle_updateBattle s.battles battleId b _ hb hbid
  have h2 : findBattle
      (updateBattle (updateBattle s.battles (setAgentStatus b agentId .success))
        { setAgentStatus b agentId .success with
          status := BattleStatus.defeat
          completedAt := some ctx.now
          agents := (setAgentStatus b agentId .success).agents.map cancelWorking }) battleId =
      some { setAgentStatus b agentId .success with
          status := BattleStatus.defeat
          completedAt := some ctx.now
          agents := (setAgentStatus b agentId .success).agents.map cancelWorking } :=
    findBattle_updateBattle _ battleId (setAgentStatus b agentId .success) _ h1 hbid
  rw [hred, cleanupBattle_battles]
  have hb3 : (setBattle (setBattle s (setAgentStatus b agentId .success))
      { setAgentStatus b agentId .success with
        status := BattleStatus.defeat
        completedAt := some ctx.now
        agents := (setAgentStatus b agentId .success).agents.map cancelWorking }).battles =
      updateBattle (updateBattle s.battles (setAgentStatus b agentId .success))
        { setAgentStatus b agentId .success with
          status := BattleStatus.defeat
          completedAt := some ctx.now
          agents := (setAgentStatus b agentId .success).agents.map cancelWorking } := rfl
  rw [hb3, h2]
  constructor
  · rfl
  · show (findAgent ((setAgentStatus b agentId .success).agents.map cancelWorking)
        agentId).map AgentInstance.status = some AgentStatus.success
    rw [findAgent_map _ _ cancelWorking cancelWorking_id]
    unfold setAgentStatus
    rw [findAgent_map _ _ _ (fun x => by
      by_cases hx : x.id = agentId <;> simp [hx])]
    rw [ha]
    show some (cancelWorking (if a.id = agentId then { a with status := .success } else a)).status =
      some AgentStatus.success
    rw [if_pos haid]
    unfold cancelWorking
    rw [if_neg (by simp)]

/-- Witness for C10 at the concrete fighting battle with a failing
collaborator. -/
theorem c10_witness :
    (findBattle (handleAgentEvent exFightState "b1" "b1-agent-0" .success exCtxFail).battles
        "b1").map Battle.status = some BattleStatus.defeat
    ∧ ((findBattle (handleAgentEvent exFightState "b1" "b1-agent-0" .success
        exCtxFail).battles "b1").bind (fun b2 => findAgent b2.agents "b1-agent-0")).map
        AgentInstance.status = some AgentStatus.success := by
  exact c10_publish_failure_keeps_winner_success exFightState "b1" "b1-agent-0" exCtxFail
    exFightingBattle (exAgent "b1" 0 .working) (by decide) (by decide) rfl rfl

end VibeRts
